import Mathlib

/-!
Verification of the AgentMail on-chain registry program.

The development shallowly embeds the program: byte buffers are lists of
natural numbers below 256, machine integers are `Nat`/`Int` with explicit
modular reductions, fallible operations return `Except ProgramError`.
Definitions mirror the Rust source of the program
(src/program/src/state/agent_registry.rs, the instruction modules and the
entrypoint).  Pieces of the repository that are referenced but whose
source file is absent (the generic typed-account serialization traits,
the PDA validation trait and a few account precondition helpers) are
modelled from the specification; each such definition carries a doc
comment starting with: Modelled from the spec.
-/

deriving instance DecidableEq for Except

set_option maxRecDepth 100000

namespace AgentMail

/-- Little-endian interpretation of a byte list (bytes are naturals below 256;
mirrors u32::from_le_bytes / i64::from_le_bytes composition). -/
def leToNat : List Nat → Nat
  | [] => 0
  | b :: bs => b + 256 * leToNat bs

/-- `natToLe k n` is the `k`-byte little-endian encoding of `n`
(mirrors to_le_bytes on the unsigned value). -/
def natToLe : Nat → Nat → List Nat
  | 0, _ => []
  | k + 1, n => n % 256 :: natToLe k (n / 256)

/-- 4-byte little-endian encoding, as used for the string length prefixes. -/
def u32le (n : Nat) : List Nat := natToLe 4 n

/-- 8-byte little-endian two-complement encoding of an `i64` value
(mirrors i64::to_le_bytes). -/
def i64le (x : Int) : List Nat := natToLe 8 (x % (2 ^ 64)).toNat

/-- Decode 8 little-endian bytes as a signed 64-bit integer
(mirrors i64::from_le_bytes). -/
def leToI64 (bs : List Nat) : Int :=
  let n : Nat := leToNat bs
  if n < 2 ^ 63 then (n : Int) else (n : Int) - 2 ^ 64

/-- All entries of the list are bytes (below 256). -/
def IsBytes (l : List Nat) : Prop := ∀ b ∈ l, b < 256

instance (l : List Nat) : Decidable (IsBytes l) := by
  unfold IsBytes; infer_instance

/-- UTF-8 validity of a byte sequence, the check performed by Rust
String::from_utf8: ASCII, or a well-formed 2-, 3- or 4-byte sequence
excluding overlong forms, surrogates and code points above U+10FFFF. -/
def isValidUtf8 : List Nat → Bool
  | [] => true
  | b0 :: rest =>
    if b0 < 0x80 then
      isValidUtf8 rest
    else
      match rest with
      | [] => false
      | b1 :: rest1 =>
        if 0xC2 ≤ b0 ∧ b0 ≤ 0xDF then
          decide (0x80 ≤ b1 ∧ b1 ≤ 0xBF) && isValidUtf8 rest1
        else
          match rest1 with
          | [] => false
          | b2 :: rest2 =>
            if b0 = 0xE0 then
              decide (0xA0 ≤ b1 ∧ b1 ≤ 0xBF) && decide (0x80 ≤ b2 ∧ b2 ≤ 0xBF) &&
                isValidUtf8 rest2
            else if (0xE1 ≤ b0 ∧ b0 ≤ 0xEC) ∨ b0 = 0xEE ∨ b0 = 0xEF then
              decide (0x80 ≤ b1 ∧ b1 ≤ 0xBF) && decide (0x80 ≤ b2 ∧ b2 ≤ 0xBF) &&
                isValidUtf8 rest2
            else if b0 = 0xED then
              decide (0x80 ≤ b1 ∧ b1 ≤ 0x9F) && decide (0x80 ≤ b2 ∧ b2 ≤ 0xBF) &&
                isValidUtf8 rest2
            else
              match rest2 with
              | [] => false
              | b3 :: rest3 =>
                if b0 = 0xF0 then
                  decide (0x90 ≤ b1 ∧ b1 ≤ 0xBF) && decide (0x80 ≤ b2 ∧ b2 ≤ 0xBF) &&
                    decide (0x80 ≤ b3 ∧ b3 ≤ 0xBF) && isValidUtf8 rest3
                else if 0xF1 ≤ b0 ∧ b0 ≤ 0xF3 then
                  decide (0x80 ≤ b1 ∧ b1 ≤ 0xBF) && decide (0x80 ≤ b2 ∧ b2 ≤ 0xBF) &&
                    decide (0x80 ≤ b3 ∧ b3 ≤ 0xBF) && isValidUtf8 rest3
                else if b0 = 0xF4 then
                  decide (0x80 ≤ b1 ∧ b1 ≤ 0x8F) && decide (0x80 ≤ b2 ∧ b2 ≤ 0xBF) &&
                    decide (0x80 ≤ b3 ∧ b3 ≤ 0xBF) && isValidUtf8 rest3
                else
                  false

/-- Runtime-level errors (pinocchio ProgramError), restricted to the
variants the program uses. -/
inductive ProgramError where
  | InvalidInstructionData
  | NotEnoughAccountKeys
  | MissingRequiredSignature
  | IncorrectProgramId
  | InvalidSeeds
  | InvalidArgument
  | AccountAlreadyInitialized
  | Immutable
  | Custom (code : Nat)
  deriving DecidableEq

/-- Program-specific errors of src/program/src/errors.rs (AgentMailProgramError). -/
inductive AgentMailProgramError where
  | InvalidAuthority
  | NameTooLong
  | InboxUrlTooLong
  | InvalidNameLength
  | InvalidInboxUrlLength
  | InvalidUtf8
  | RegistryAlreadyExists
  | RegistryDoesNotExist
  | InvalidAccountSize
  | InvalidAccountData
  deriving DecidableEq

/-- Discriminant values of the error enum, as declared in errors.rs. -/
def AgentMailProgramError.code : AgentMailProgramError → Nat
  | .InvalidAuthority => 0
  | .NameTooLong => 1
  | .InboxUrlTooLong => 2
  | .InvalidNameLength => 3
  | .InvalidInboxUrlLength => 4
  | .InvalidUtf8 => 5
  | .RegistryAlreadyExists => 6
  | .RegistryDoesNotExist => 7
  | .InvalidAccountSize => 8
  | .InvalidAccountData => 9

/-- From<AgentMailProgramError> for ProgramError: Custom(100 + e), the
offset avoiding conflicts (errors.rs). -/
def AgentMailProgramError.toProgramError (e : AgentMailProgramError) : ProgramError :=
  ProgramError.Custom (100 + e.code)

/-- A caller-supplied account reference (pinocchio AccountView), reduced to
the components the program reads: address, owning program, data region and
the signer/writable flags. -/
structure AccountView where
  address : List Nat
  owner : List Nat
  dataBytes : List Nat
  isSigner : Bool
  isWritable : Bool
  deriving DecidableEq

/-- The system program address (32 zero bytes, base58 string of all ones). -/
def systemProgramId : List Nat := List.replicate 32 0

/-- The program id declared by declare_id! in lib.rs
(base58 PinocchioTemp1ate11111111111111111111111111, decoded to bytes). -/
def agentmailProgramId : List Nat :=
  [5, 210, 7, 146, 231, 186, 117, 253, 26, 104, 242, 36, 143, 135, 214, 53,
   241, 167, 92, 116, 32, 11, 97, 193, 159, 37, 97, 104, 124, 0, 0, 0]

/-- The fixed PDA seed string b"agentmail" (AgentRegistry PREFIX). -/
def agentmailSeed : List Nat := [0x61, 0x67, 0x65, 0x6E, 0x74, 0x6D, 0x61, 0x69, 0x6C]

/-- The agent registry account state (state/agent_registry.rs), a record of
384 bytes: bump, version, 6 padding bytes, 32-byte authority, a 68-byte
length-prefixed name field, a 260-byte length-prefixed inbox URL field and
two i64 timestamps. -/
structure AgentRegistry where
  bump : Nat
  version : Nat
  padding : List Nat
  authority : List Nat
  name : List Nat
  inbox_url : List Nat
  created_at : Int
  updated_at : Int
  deriving DecidableEq

namespace AgentRegistry

/-- Maximum length for the agent name, in UTF-8 bytes. -/
def MAX_NAME_LEN : Nat := 64

/-- Maximum length for the inbox URL, in UTF-8 bytes. -/
def MAX_INBOX_URL_LEN : Nat := 256

/-- Size of the serialized record body: 1+1+6+32+68+260+8+8 = 384 bytes. -/
def DATA_LEN : Nat := 1 + 1 + 6 + 32 + 68 + 260 + 8 + 8

/-- Schema version byte, fixed at 1 (Versioned impl). -/
def VERSION : Nat := 1

/-- Modelled from the spec: the account-kind discriminator byte of the
typed-account envelope (AgentMailAccountDiscriminators, declared in the
account trait file that is absent from the sources).  Its concrete value is
never observable through the program interface — it is only compared for
equality with itself by the codec — so a fixed byte value is chosen here. -/
def AGENT_REGISTRY_DISC : Nat := 2

/-- Modelled from the spec: total persisted size of the typed account, the
384-byte record body behind the leading discriminator/version byte pair
owned by the storage layer above the record codec (decoded account layout
per the spec, and pinned by the serialization unit tests in
state/agent_registry.rs: to_bytes, whose length is LEN, starts with the
discriminator, the version and then the record body). -/
def LEN : Nat := 2 + DATA_LEN

/-- Serialize the record body (AccountSerialize::to_bytes_inner): bump,
version, padding, authority, name, inbox URL, then both timestamps in
little-endian. -/
def to_bytes_inner (r : AgentRegistry) : List Nat :=
  r.bump :: r.version ::
    (r.padding ++ (r.authority ++ (r.name ++ (r.inbox_url ++
      (i64le r.created_at ++ i64le r.updated_at)))))

/-- Modelled from the spec: the full typed-account serialization (the
generic to_bytes of the absent account trait file): the discriminator and
envelope version bytes followed by the record body, as pinned by the
serialization unit tests in state/agent_registry.rs. -/
def to_bytes (r : AgentRegistry) : List Nat :=
  AGENT_REGISTRY_DISC :: VERSION :: r.to_bytes_inner

/-- Reinterpret a 384-byte record body at its fixed field offsets
(the zero-copy view the deserializer produces over the body bytes). -/
def fromBytesInner (d : List Nat) : AgentRegistry where
  bump := d.getD 0 0
  version := d.getD 1 0
  padding := (d.drop 2).take 6
  authority := (d.drop 8).take 32
  name := (d.drop 40).take 68
  inbox_url := (d.drop 108).take 260
  created_at := leToI64 ((d.drop 368).take 8)
  updated_at := leToI64 ((d.drop 376).take 8)

/-- Modelled from the spec: AccountDeserialize::from_bytes of the absent
account trait file — the validate-then-decode path of the typed-account
envelope: reject a buffer whose length is not LEN, or whose leading
discriminator/version header does not match (in particular an all-zero
header must not alias a valid record), then view the body at its fixed
offsets. -/
def from_bytes (d : List Nat) : Except ProgramError AgentRegistry :=
  if d.length ≠ LEN then
    Except.error AgentMailProgramError.InvalidAccountSize.toProgramError
  else if d.getD 0 0 ≠ AGENT_REGISTRY_DISC then
    Except.error AgentMailProgramError.InvalidAccountData.toProgramError
  else if d.getD 1 0 ≠ VERSION then
    Except.error AgentMailProgramError.InvalidAccountData.toProgramError
  else
    Except.ok (fromBytesInner (d.drop 2))

/-- Update the agent name (set_name): reject with NameTooLong when the
UTF-8 byte length exceeds MAX_NAME_LEN, leaving the record untouched;
otherwise clear the 68-byte field and write the 4-byte little-endian
length prefix followed by the payload.  The pair returns the resulting
record state together with the error, mirroring &mut self plus Result. -/
def set_name (r : AgentRegistry) (nameBytes : List Nat) :
    AgentRegistry × Option ProgramError :=
  if nameBytes.length > MAX_NAME_LEN then
    (r, some AgentMailProgramError.NameTooLong.toProgramError)
  else
    ({ r with name := (u32le nameBytes.length ++ nameBytes ++
          List.replicate (MAX_NAME_LEN - nameBytes.length) 0) }, none)

/-- Update the inbox URL (set_inbox_url), the 260-byte analogue of
set_name with the InboxUrlTooLong error. -/
def set_inbox_url (r : AgentRegistry) (urlBytes : List Nat) :
    AgentRegistry × Option ProgramError :=
  if urlBytes.length > MAX_INBOX_URL_LEN then
    (r, some AgentMailProgramError.InboxUrlTooLong.toProgramError)
  else
    ({ r with inbox_url := (u32le urlBytes.length ++ urlBytes ++
          List.replicate (MAX_INBOX_URL_LEN - urlBytes.length) 0) }, none)

/-- Read the agent name (get_name): decode the 4-byte little-endian length
prefix, reject with InvalidNameLength when it exceeds MAX_NAME_LEN before
slicing the payload, then reject with InvalidUtf8 when the payload is not
valid UTF-8.  Returns the payload bytes of the resulting string. -/
def get_name (r : AgentRegistry) : Except ProgramError (List Nat) :=
  let len := leToNat (r.name.take 4)
  if len > MAX_NAME_LEN then
    Except.error AgentMailProgramError.InvalidNameLength.toProgramError
  else
    let nameBytes := (r.name.drop 4).take len
    if isValidUtf8 nameBytes then Except.ok nameBytes
    else Except.error AgentMailProgramError.InvalidUtf8.toProgramError

/-- Read the inbox URL (get_inbox_url), the 256-byte analogue of get_name
with the InvalidInboxUrlLength error. -/
def get_inbox_url (r : AgentRegistry) : Except ProgramError (List Nat) :=
  let len := leToNat (r.inbox_url.take 4)
  if len > MAX_INBOX_URL_LEN then
    Except.error AgentMailProgramError.InvalidInboxUrlLength.toProgramError
  else
    let urlBytes := (r.inbox_url.drop 4).take len
    if isValidUtf8 urlBytes then Except.ok urlBytes
    else Except.error AgentMailProgramError.InvalidUtf8.toProgramError

/-- Check that the provided authority matches the stored authority
(validate_authority), failing with InvalidAuthority otherwise. -/
def validate_authority (r : AgentRegistry) (provided : List Nat) :
    Except ProgramError Unit :=
  if r.authority ≠ provided then
    Except.error AgentMailProgramError.InvalidAuthority.toProgramError
  else
    Except.ok ()

/-- Set the updated_at timestamp (touch). -/
def touch (r : AgentRegistry) (timestamp : Int) : AgentRegistry :=
  { r with updated_at := timestamp }

/-- Construct a fresh record (AgentRegistry::new): zeroed string fields,
both timestamps set to the creation time, then set_name and set_inbox_url
with error propagation. -/
def new (bump : Nat) (authority nameBytes urlBytes : List Nat) (timestamp : Int) :
    Except ProgramError AgentRegistry :=
  let r0 : AgentRegistry :=
    { bump := bump
      version := VERSION
      padding := List.replicate 6 0
      authority := authority
      name := List.replicate 68 0
      inbox_url := List.replicate 260 0
      created_at := timestamp
      updated_at := timestamp }
  match r0.set_name nameBytes with
  | (_, some e) => Except.error e
  | (r1, none) =>
    match r1.set_inbox_url urlBytes with
    | (_, some e) => Except.error e
    | (r2, none) => Except.ok r2

/-- Modelled from the spec: PdaSeeds::validate_pda of the absent PDA trait
file.  The platform hash-based address derivation is abstracted as an
oracle `derive` mapping (seed list, program id) to the derived address; the
check recomputes the derivation over the fixed seed prefix, the stored
authority and the given bump, and compares it against the account address,
failing with a PDA-mismatch class error. -/
def validate_pda (derive : List (List Nat) → List Nat → List Nat)
    (r : AgentRegistry) (account : AccountView) (program_id : List Nat)
    (bump : Nat) : Except ProgramError Unit :=
  if derive [agentmailSeed, r.authority, [bump]] program_id = account.address then
    Except.ok ()
  else
    Except.error ProgramError.InvalidSeeds

end AgentRegistry

/-- Modelled from the spec: the mustBeSigner account precondition
(verify_signer of the absent utils module), failing
MissingRequiredSignature when the reference is not signed. -/
def verify_signer (a : AccountView) : Except ProgramError Unit :=
  if a.isSigner then Except.ok () else Except.error ProgramError.MissingRequiredSignature

/-- Modelled from the spec: the mustBeWritable account precondition
(verify_writable of the absent utils module), failing with the
writable-violation error when the reference is not writable. -/
def verify_writable (a : AccountView) : Except ProgramError Unit :=
  if a.isWritable then Except.ok () else Except.error ProgramError.Immutable

/-- Modelled from the spec: the mustBeEmpty account precondition
(verify_empty of the absent utils module), failing when the referenced
storage already holds data. -/
def verify_empty (a : AccountView) : Except ProgramError Unit :=
  if a.dataBytes = [] then Except.ok ()
  else Except.error ProgramError.AccountAlreadyInitialized

/-- Modelled from the spec: the mustBeOwnedBySystem precondition
(verify_system_account of the absent utils module), an ownership-tag
check failing IncorrectProgramId on mismatch. -/
def verify_system_account (a : AccountView) : Except ProgramError Unit :=
  if a.owner = systemProgramId then Except.ok ()
  else Except.error ProgramError.IncorrectProgramId

/-- Verify the account is the system program (program_utils.rs). -/
def verify_system_program (a : AccountView) : Except ProgramError Unit :=
  if a.address = systemProgramId then Except.ok ()
  else Except.error ProgramError.IncorrectProgramId

/-- Verify the account is the current program (program_utils.rs). -/
def verify_current_program (a : AccountView) : Except ProgramError Unit :=
  if a.address = agentmailProgramId then Except.ok ()
  else Except.error ProgramError.IncorrectProgramId

/-- Get the current blockchain timestamp (program_utils.rs): the source is
a placeholder returning the fixed timestamp 1707523200 instead of reading
the Clock sysvar. -/
def get_current_timestamp : Except ProgramError Int :=
  Except.ok 1707523200

/-- Typed account view for UpdateAgent: authority, registry, program. -/
structure UpdateAgentAccounts where
  agent_authority : AccountView
  agent_registry : AccountView
  program : AccountView
  deriving DecidableEq

/-- TryFrom<&[AccountView]> for UpdateAgentAccounts: exactly three
accounts, else NotEnoughAccountKeys; the authority must sign, the registry
must be writable, and the third account must be this program. -/
def UpdateAgentAccounts.try_from (accounts : List AccountView) :
    Except ProgramError UpdateAgentAccounts :=
  match accounts with
  | [agent_authority, agent_registry, program] =>
    match verify_signer agent_authority with
    | Except.error e => Except.error e
    | Except.ok _ =>
      match verify_writable agent_registry with
      | Except.error e => Except.error e
      | Except.ok _ =>
        match verify_current_program program with
        | Except.error e => Except.error e
        | Except.ok _ =>
          Except.ok ⟨agent_authority, agent_registry, program⟩
  | _ => Except.error ProgramError.NotEnoughAccountKeys

/-- Typed account view for DeregisterAgent: authority, registry, program. -/
structure DeregisterAgentAccounts where
  agent_authority : AccountView
  agent_registry : AccountView
  program : AccountView
  deriving DecidableEq

/-- TryFrom<&[AccountView]> for DeregisterAgentAccounts: exactly three
accounts, else NotEnoughAccountKeys; the authority must sign and be
writable, the registry must be writable, the third account must be this
program. -/
def DeregisterAgentAccounts.try_from (accounts : List AccountView) :
    Except ProgramError DeregisterAgentAccounts :=
  match accounts with
  | [agent_authority, agent_registry, program] =>
    match verify_signer agent_authority with
    | Except.error e => Except.error e
    | Except.ok _ =>
      match verify_writable agent_authority with
      | Except.error e => Except.error e
      | Except.ok _ =>
        match verify_writable agent_registry with
        | Except.error e => Except.error e
        | Except.ok _ =>
          match verify_current_program program with
          | Except.error e => Except.error e
          | Except.ok _ =>
            Except.ok ⟨agent_authority, agent_registry, program⟩
  | _ => Except.error ProgramError.NotEnoughAccountKeys

/-- Typed account view for RegisterAgent: payer, authority, registry,
system program, program. -/
structure RegisterAgentAccounts where
  payer : AccountView
  agent_authority : AccountView
  agent_registry : AccountView
  system_program : AccountView
  program : AccountView
  deriving DecidableEq

/-- TryFrom<&[AccountView]> for RegisterAgentAccounts: exactly five
accounts, else NotEnoughAccountKeys; the payer must sign and be writable,
the authority must sign, the registry must be writable, empty and
system-owned, the fourth account must be the system program and the fifth
this program. -/
def RegisterAgentAccounts.try_from (accounts : List AccountView) :
    Except ProgramError RegisterAgentAccounts :=
  match accounts with
  | [payer, agent_authority, agent_registry, system_program, program] =>
    match verify_signer payer with
    | Except.error e => Except.error e
    | Except.ok _ =>
      match verify_writable payer with
      | Except.error e => Except.error e
      | Except.ok _ =>
        match verify_signer agent_authority with
        | Except.error e => Except.error e
        | Except.ok _ =>
          match verify_writable agent_registry with
          | Except.error e => Except.error e
          | Except.ok _ =>
            match verify_empty agent_registry with
            | Except.error e => Except.error e
            | Except.ok _ =>
              match verify_system_account agent_registry with
              | Except.error e => Except.error e
              | Except.ok _ =>
                match verify_system_program system_program with
                | Except.error e => Except.error e
                | Except.ok _ =>
                  match verify_current_program program with
                  | Except.error e => Except.error e
                  | Except.ok _ =>
                    Except.ok ⟨payer, agent_authority, agent_registry,
                      system_program, program⟩
  | _ => Except.error ProgramError.NotEnoughAccountKeys

/-- Instruction payload for UpdateAgent: the name and inbox URL, as the
UTF-8 byte sequences of the decoded strings. -/
structure UpdateAgentData where
  name : List Nat
  inbox_url : List Nat
  deriving DecidableEq

/-- TryFrom<&[u8]> for UpdateAgentData (update_agent/data.rs): an empty
buffer is InvalidInstructionData; then a 4-byte little-endian name length
(bounds-checked against the buffer and against 64 before slicing, with
NameTooLong), the name payload (UTF-8-checked, InvalidUtf8), then the same
for the inbox URL against 256 with InboxUrlTooLong.  The short-buffer
guard require_len, whose macro definition is absent from the sources,
is modelled from the spec as the MalformedRequest-class failure
InvalidInstructionData. -/
def UpdateAgentData.try_from (data : List Nat) :
    Except ProgramError UpdateAgentData :=
  if data = [] then Except.error ProgramError.InvalidInstructionData
  else if data.length < 4 then Except.error ProgramError.InvalidInstructionData
  else
    let name_len := leToNat (data.take 4)
    if name_len > 64 then
      Except.error AgentMailProgramError.NameTooLong.toProgramError
    else if data.length < 4 + name_len then
      Except.error ProgramError.InvalidInstructionData
    else
      let nameBytes := (data.drop 4).take name_len
      if ¬ isValidUtf8 nameBytes then
        Except.error AgentMailProgramError.InvalidUtf8.toProgramError
      else
        let rest := data.drop (4 + name_len)
        if rest.length < 4 then Except.error ProgramError.InvalidInstructionData
        else
          let url_len := leToNat (rest.take 4)
          if url_len > 256 then
            Except.error AgentMailProgramError.InboxUrlTooLong.toProgramError
          else if rest.length < 4 + url_len then
            Except.error ProgramError.InvalidInstructionData
          else
            let urlBytes := (rest.drop 4).take url_len
            if ¬ isValidUtf8 urlBytes then
              Except.error AgentMailProgramError.InvalidUtf8.toProgramError
            else
              Except.ok ⟨nameBytes, urlBytes⟩

/-- Instruction payload for RegisterAgent: PDA bump plus name and inbox
URL byte sequences. -/
structure RegisterAgentData where
  bump : Nat
  name : List Nat
  inbox_url : List Nat
  deriving DecidableEq

/-- Modelled from the spec: TryFrom<&[u8]> for RegisterAgentData (the
register_agent data module is absent from the sources).  Per the external
interface section the register payload is a leading bump byte followed by
the same length-prefixed name and URL layout as UpdateAgent, decoded with
the same bounds-then-slice-then-validate-UTF-8 ordering and the same error
kinds; an empty buffer is InvalidInstructionData. -/
def RegisterAgentData.try_from (data : List Nat) :
    Except ProgramError RegisterAgentData :=
  match data with
  | [] => Except.error ProgramError.InvalidInstructionData
  | bump :: rest =>
    match UpdateAgentData.try_from rest with
    | Except.error e => Except.error e
    | Except.ok d => Except.ok ⟨bump, d.name, d.inbox_url⟩

/-- Instruction data for DeregisterAgent: no payload; any bytes (including
none) are accepted and ignored (deregister_agent/data.rs). -/
def DeregisterAgentData.try_from (_data : List Nat) : Except ProgramError Unit :=
  Except.ok ()

/-- Processes UpdateAgent (update_agent/processor.rs).  Parses the typed
accounts then the payload, takes the timestamp, requires the stored size
to be exactly LEN (else InvalidAccountSize), decodes the stored record
(any decode failure is InvalidAccountData), checks the signing authority
against the stored one, applies set_name and set_inbox_url, touches
updated_at and re-serializes.  The returned bytes are the new contents of
the registry account data region, its only mutation. -/
def process_update_agent (_program_id : List Nat) (accounts : List AccountView)
    (instruction_data : List Nat) : Except ProgramError (List Nat) :=
  match UpdateAgentAccounts.try_from accounts with
  | Except.error e => Except.error e
  | Except.ok accs =>
    match UpdateAgentData.try_from instruction_data with
    | Except.error e => Except.error e
    | Except.ok dat =>
      match get_current_timestamp with
      | Except.error e => Except.error e
      | Except.ok timestamp =>
        if accs.agent_registry.dataBytes.length ≠ AgentRegistry.LEN then
          Except.error AgentMailProgramError.InvalidAccountSize.toProgramError
        else
          match AgentRegistry.from_bytes accs.agent_registry.dataBytes with
          | Except.error _ =>
            Except.error AgentMailProgramError.InvalidAccountData.toProgramError
          | Except.ok registry =>
            match registry.validate_authority accs.agent_authority.address with
            | Except.error e => Except.error e
            | Except.ok _ =>
              match registry.set_name dat.name with
              | (_, some e) => Except.error e
              | (r1, none) =>
                match r1.set_inbox_url dat.inbox_url with
                | (_, some e) => Except.error e
                | (r2, none) =>
                  Except.ok (r2.touch timestamp).to_bytes

/-- Processes DeregisterAgent (deregister_agent/processor.rs).  Parses the
typed accounts then the (ignored) payload, requires the stored size to be
exactly LEN, decodes the stored record, checks the signing authority, then
zero-fills the account data region (logical deletion; the lamport refund
is an external TODO in the source).  The returned bytes are the new
contents of the registry account data region. -/
def process_deregister_agent (_program_id : List Nat) (accounts : List AccountView)
    (instruction_data : List Nat) : Except ProgramError (List Nat) :=
  match DeregisterAgentAccounts.try_from accounts with
  | Except.error e => Except.error e
  | Except.ok accs =>
    match DeregisterAgentData.try_from instruction_data with
    | Except.error e => Except.error e
    | Except.ok _ =>
      if accs.agent_registry.dataBytes.length ≠ AgentRegistry.LEN then
        Except.error AgentMailProgramError.InvalidAccountSize.toProgramError
      else
        match AgentRegistry.from_bytes accs.agent_registry.dataBytes with
        | Except.error _ =>
          Except.error AgentMailProgramError.InvalidAccountData.toProgramError
        | Except.ok registry =>
          match registry.validate_authority accs.agent_authority.address with
          | Except.error e => Except.error e
          | Except.ok _ =>
            Except.ok (List.replicate accs.agent_registry.dataBytes.length 0)

/-- Processes RegisterAgent (register_agent/processor.rs).  Parses the
typed accounts then the payload, takes the timestamp, constructs the
record, validates the registry PDA against the derivation oracle and the
authority binding, requires the target storage to be empty (else
RegistryAlreadyExists), allocates the account through the external
create-storage collaborator and writes the serialized record.  The
returned bytes are the new contents of the registry account data region. -/
def process_register_agent (derive : List (List Nat) → List Nat → List Nat)
    (program_id : List Nat) (accounts : List AccountView)
    (instruction_data : List Nat) : Except ProgramError (List Nat) :=
  match RegisterAgentAccounts.try_from accounts with
  | Except.error e => Except.error e
  | Except.ok accs =>
    match RegisterAgentData.try_from instruction_data with
    | Except.error e => Except.error e
    | Except.ok dat =>
      match get_current_timestamp with
      | Except.error e => Except.error e
      | Except.ok timestamp =>
        match AgentRegistry.new dat.bump accs.agent_authority.address
            dat.name dat.inbox_url timestamp with
        | Except.error e => Except.error e
        | Except.ok agent_registry =>
          match agent_registry.validate_pda derive accs.agent_registry
              program_id dat.bump with
          | Except.error e => Except.error e
          | Except.ok _ =>
            match agent_registry.validate_authority
                accs.agent_authority.address with
            | Except.error e => Except.error e
            | Except.ok _ =>
              if accs.agent_registry.dataBytes.length ≠ 0 then
                Except.error
                  AgentMailProgramError.RegistryAlreadyExists.toProgramError
              else
                Except.ok agent_registry.to_bytes

/-- The one-byte operation tags of the dispatch table
(AgentMailInstructionDiscriminators): 3 register, 4 update, 5 deregister. -/
inductive AgentMailInstructionDiscriminators where
  | RegisterAgent
  | UpdateAgent
  | DeregisterAgent
  deriving DecidableEq

/-- TryFrom<u8> for the instruction discriminator (traits/instruction.rs):
3, 4 and 5 are the known tags, anything else is InvalidInstructionData. -/
def AgentMailInstructionDiscriminators.try_from (value : Nat) :
    Except ProgramError AgentMailInstructionDiscriminators :=
  match value with
  | 3 => Except.ok AgentMailInstructionDiscriminators.RegisterAgent
  | 4 => Except.ok AgentMailInstructionDiscriminators.UpdateAgent
  | 5 => Except.ok AgentMailInstructionDiscriminators.DeregisterAgent
  | _ => Except.error ProgramError.InvalidInstructionData

/-- The program entrypoint (entrypoint.rs): split off the leading tag byte
(an empty request is InvalidInstructionData), decode the discriminator and
dispatch to the matching processor with the remaining payload. -/
def process_instruction (derive : List (List Nat) → List Nat → List Nat)
    (program_id : List Nat) (accounts : List AccountView)
    (instruction_data : List Nat) : Except ProgramError (List Nat) :=
  match instruction_data with
  | [] => Except.error ProgramError.InvalidInstructionData
  | discriminator :: rest =>
    match AgentMailInstructionDiscriminators.try_from discriminator with
    | Except.error e => Except.error e
    | Except.ok AgentMailInstructionDiscriminators.RegisterAgent =>
      process_register_agent derive program_id accounts rest
    | Except.ok AgentMailInstructionDiscriminators.UpdateAgent =>
      process_update_agent program_id accounts rest
    | Except.ok AgentMailInstructionDiscriminators.DeregisterAgent =>
      process_deregister_agent program_id accounts rest

/-! Concrete scenario used by the evaluation theorems and witnesses: an
owner with authority key 1…1 registers the agent nix with its inbox URL,
then updates it to the name updated with a new URL (the end-to-end
scenarios of the specification). -/

/-- The scenario owner key. -/
def scAuthority : List Nat := List.replicate 32 1

/-- The scenario registry PDA address (the value the derivation oracle of
the scenario returns). -/
def scRegAddr : List Nat := List.replicate 32 7

/-- The scenario address-derivation oracle: every derivation yields the
scenario registry address, so the registry PDA check passes there. -/
def scDerive : List (List Nat) → List Nat → List Nat := fun _ _ => scRegAddr

/-- UTF-8 bytes of the name nix. -/
def scNameNix : List Nat := [110, 105, 120]

/-- UTF-8 bytes of the URL of the nix inbox. -/
def scUrlNix : List Nat :=
  [104, 116, 116, 112, 115, 58, 47, 47, 110, 105, 120, 46, 101, 120, 97,
   109, 112, 108, 101, 46, 99, 111, 109, 47, 105, 110, 98, 111, 120]

/-- UTF-8 bytes of the name updated. -/
def scNameUpd : List Nat := [117, 112, 100, 97, 116, 101, 100]

/-- UTF-8 bytes of the updated inbox URL. -/
def scUrlUpd : List Nat :=
  [104, 116, 116, 112, 115, 58, 47, 47, 117, 112, 100, 97, 116, 101, 100,
   46, 101, 120, 97, 109, 112, 108, 101, 46, 99, 111, 109, 47, 105, 110,
   98, 111, 120]

/-- The scenario payer account: a signing, writable system account. -/
def scPayerAcct : AccountView :=
  ⟨List.replicate 32 2, systemProgramId, [], true, true⟩

/-- The scenario authority account: signing (and writable, as deregister
requires). -/
def scAuthAcct : AccountView := ⟨scAuthority, systemProgramId, [], true, true⟩

/-- The registry account before creation: empty, writable, system-owned. -/
def scRegEmptyAcct : AccountView := ⟨scRegAddr, systemProgramId, [], false, true⟩

/-- The system program account of the scenario. -/
def scSysAcct : AccountView :=
  ⟨systemProgramId, List.replicate 32 3, [], false, false⟩

/-- The account referencing this program. -/
def scProgAcct : AccountView :=
  ⟨agentmailProgramId, List.replicate 32 3, [], false, false⟩

/-- The register payload: bump 255, then the length-prefixed name and URL. -/
def scRegIx : List Nat :=
  255 :: (u32le scNameNix.length ++ scNameNix ++
    (u32le scUrlNix.length ++ scUrlNix))

/-- The update payload: the length-prefixed updated name and URL. -/
def scUpdIx : List Nat :=
  u32le scNameUpd.length ++ scNameUpd ++ (u32le scUrlUpd.length ++ scUrlUpd)

/-- The account list of the scenario register call. -/
def scRegAccounts : List AccountView :=
  [scPayerAcct, scAuthAcct, scRegEmptyAcct, scSysAcct, scProgAcct]

/-- The record the scenario register call stores. -/
def scReg1 : AgentRegistry where
  bump := 255
  version := 1
  padding := List.replicate 6 0
  authority := scAuthority
  name := u32le 3 ++ scNameNix ++ List.replicate 61 0
  inbox_url := u32le 29 ++ scUrlNix ++ List.replicate 227 0
  created_at := 1707523200
  updated_at := 1707523200

/-- The record the scenario update call stores. -/
def scReg2 : AgentRegistry :=
  { scReg1 with
    name := u32le 7 ++ scNameUpd ++ List.replicate 57 0
    inbox_url := u32le 33 ++ scUrlUpd ++ List.replicate 223 0 }

/-- The registry account holding the stored scenario record, at a caller
chosen address: the processors are run against it to observe whether the
address is ever re-validated. -/
def scStoredAcct (addr : List Nat) : AccountView :=
  ⟨addr, agentmailProgramId, scReg1.to_bytes, false, true⟩

/-- The account list of the scenario update (and deregister) call. -/
def scUpdAccounts : List AccountView :=
  [scAuthAcct, scStoredAcct scRegAddr, scProgAcct]

/-- A registry account whose data region has 384 bytes, the record body
size without the two header bytes. -/
def scBadSizeAcct : AccountView :=
  ⟨scRegAddr, agentmailProgramId, List.replicate 384 0, false, true⟩

/-- A signing account whose address differs from the stored owner key. -/
def scWrongAuthAcct : AccountView :=
  ⟨List.replicate 32 9, systemProgramId, [], true, true⟩

/-- A four-element account list, longer than the update and deregister
arity and shorter than the register arity. -/
def scFourAccounts : List AccountView :=
  [scAuthAcct, scStoredAcct scRegAddr, scProgAcct, scSysAcct]

/-- A record whose name length prefix claims 65 bytes. -/
def scBadLenReg : AgentRegistry :=
  { scReg1 with name := u32le 65 ++ List.replicate 64 97 }

/-- A record whose name payload is the invalid UTF-8 sequence
255, 254, 253, 252 behind a length prefix of 4. -/
def scBadUtf8Reg : AgentRegistry :=
  { scReg1 with name := u32le 4 ++ [255, 254, 253, 252] ++ List.replicate 60 0 }

/-- A record whose inbox URL length prefix claims 257 bytes. -/
def scUrlBadLenReg : AgentRegistry :=
  { scReg1 with inbox_url := u32le 257 ++ List.replicate 256 97 }

/-- The record invariants of the data-model section of the specification:
field widths fixed by the struct layout (6-byte zero padding, 32-byte
authority, 68- and 260-byte string fields, all holding bytes), the version
byte fixed at 1, length prefixes within the 64/256 capacities with valid
UTF-8 payloads, and i64-range timestamps with created_at ≤ updated_at. -/
def AgentRegistry.WF (r : AgentRegistry) : Prop :=
  r.bump < 256 ∧
  r.version = AgentRegistry.VERSION ∧
  r.padding = List.replicate 6 0 ∧
  r.authority.length = 32 ∧ IsBytes r.authority ∧
  r.name.length = 68 ∧ IsBytes r.name ∧
  r.inbox_url.length = 260 ∧ IsBytes r.inbox_url ∧
  leToNat (r.name.take 4) ≤ AgentRegistry.MAX_NAME_LEN ∧
  isValidUtf8 ((r.name.drop 4).take (leToNat (r.name.take 4))) = true ∧
  leToNat (r.inbox_url.take 4) ≤ AgentRegistry.MAX_INBOX_URL_LEN ∧
  isValidUtf8 ((r.inbox_url.drop 4).take (leToNat (r.inbox_url.take 4))) = true ∧
  -(2 ^ 63) ≤ r.created_at ∧ r.created_at ≤ r.updated_at ∧ r.updated_at < 2 ^ 63

instance (r : AgentRegistry) : Decidable r.WF := by
  unfold AgentRegistry.WF; infer_instance

theorem natToLe_length (k n : Nat) : (natToLe k n).length = k := by
  induction k generalizing n with
  | zero => simp [natToLe]
  | succ k ih => simp [natToLe, ih]

theorem i64le_length (x : Int) : (i64le x).length = 8 := by
  simp [i64le, natToLe_length]

theorem leToNat_natToLe (k n : Nat) : leToNat (natToLe k n) = n % 256 ^ k := by
  induction k generalizing n with
  | zero => simp [natToLe, leToNat, Nat.mod_one]
  | succ k ih =>
    simp only [natToLe, leToNat, ih]
    rw [pow_succ, mul_comm (256 ^ k) 256, Nat.mod_mul]

theorem leToI64_i64le (x : Int) (h1 : -(2 ^ 63) ≤ x) (h2 : x < 2 ^ 63) :
    leToI64 (i64le x) = x := by
  unfold leToI64 i64le
  rw [leToNat_natToLe]
  have h256 : (256 : Nat) ^ 8 = 2 ^ 64 := by norm_num
  rw [h256]
  dsimp only
  split <;> omega

theorem drop_append_add (xs ys : List Nat) (k m : Nat) (h : xs.length = k) :
    (xs ++ ys).drop (k + m) = ys.drop m := by
  induction xs generalizing k with
  | nil => simp at h; simp [← h]
  | cons x xs ih =>
    cases k with
    | zero => simp at h
    | succ k => simpa [Nat.succ_add] using ih k (by simpa using h)

theorem drop_append_len (xs ys : List Nat) (k : Nat) (h : xs.length = k) :
    (xs ++ ys).drop k = ys := by
  simpa using drop_append_add xs ys k 0 h

theorem take_append_len (xs ys : List Nat) (k : Nat) (h : xs.length = k) :
    (xs ++ ys).take k = xs := by
  subst h; exact List.take_left xs ys

theorem fromBytesInner_fields (b v : Nat) (p a nm iu c u : List Nat)
    (hp : p.length = 6) (ha : a.length = 32) (hn : nm.length = 68)
    (hi : iu.length = 260) (hc : c.length = 8) (hu : u.length = 8) :
    AgentRegistry.fromBytesInner
        (b :: v :: (p ++ (a ++ (nm ++ (iu ++ (c ++ u)))))) =
      ⟨b, v, p, a, nm, iu, leToI64 c, leToI64 u⟩ := by
  have e2 : (b :: v :: (p ++ (a ++ (nm ++ (iu ++ (c ++ u)))))).drop 2 =
      p ++ (a ++ (nm ++ (iu ++ (c ++ u)))) := rfl
  have e8 : (b :: v :: (p ++ (a ++ (nm ++ (iu ++ (c ++ u)))))).drop 8 =
      a ++ (nm ++ (iu ++ (c ++ u))) := by
    show (p ++ (a ++ (nm ++ (iu ++ (c ++ u))))).drop 6 = _
    exact drop_append_len _ _ _ hp
  have e40 : (b :: v :: (p ++ (a ++ (nm ++ (iu ++ (c ++ u)))))).drop 40 =
      nm ++ (iu ++ (c ++ u)) := by
    show (p ++ (a ++ (nm ++ (iu ++ (c ++ u))))).drop (6 + 32) = _
    rw [drop_append_add _ _ _ _ hp]
    exact drop_append_len _ _ _ ha
  have e108 : (b :: v :: (p ++ (a ++ (nm ++ (iu ++ (c ++ u)))))).drop 108 =
      iu ++ (c ++ u) := by
    show (p ++ (a ++ (nm ++ (iu ++ (c ++ u))))).drop (6 + (32 + 68)) = _
    rw [drop_append_add _ _ _ _ hp, drop_append_add _ _ _ _ ha]
    exact drop_append_len _ _ _ hn
  have e368 : (b :: v :: (p ++ (a ++ (nm ++ (iu ++ (c ++ u)))))).drop 368 =
      c ++ u := by
    show (p ++ (a ++ (nm ++ (iu ++ (c ++ u))))).drop (6 + (32 + (68 + 260))) = _
    rw [drop_append_add _ _ _ _ hp, drop_append_add _ _ _ _ ha,
      drop_append_add _ _ _ _ hn]
    exact drop_append_len _ _ _ hi
  have e376 : (b :: v :: (p ++ (a ++ (nm ++ (iu ++ (c ++ u)))))).drop 376 = u := by
    show (p ++ (a ++ (nm ++ (iu ++ (c ++ u))))).drop (6 + (32 + (68 + (260 + 8)))) = _
    rw [drop_append_add _ _ _ _ hp, drop_append_add _ _ _ _ ha,
      drop_append_add _ _ _ _ hn, drop_append_add _ _ _ _ hi]
    exact drop_append_len _ _ _ hc
  unfold AgentRegistry.fromBytesInner
  rw [e2, e8, e40, e108, e368, e376]
  congr 1
  · exact take_append_len _ _ _ hp
  · exact take_append_len _ _ _ ha
  · exact take_append_len _ _ _ hn
  · exact take_append_len _ _ _ hi
  · rw [take_append_len _ _ _ hc]
  · rw [← hu, List.take_length]

theorem to_bytes_length (r : AgentRegistry) (hp : r.padding.length = 6)
    (ha : r.authority.length = 32) (hn : r.name.length = 68)
    (hi : r.inbox_url.length = 260) : r.to_bytes.length = AgentRegistry.LEN := by
  simp [AgentRegistry.to_bytes, AgentRegistry.to_bytes_inner, AgentRegistry.LEN,
    AgentRegistry.DATA_LEN, hp, ha, hn, hi, i64le_length]

/-- Round-trip of the typed-account codec on well-formed records: the
deserializer recovers exactly the record that was serialized. -/
theorem from_bytes_to_bytes (r : AgentRegistry) (h : r.WF) :
    AgentRegistry.from_bytes r.to_bytes = Except.ok r := by
  obtain ⟨hb, hv, hpz, hal, hab, hnl, hnb, hil, hib, hnp, hnu, hip, hiu, hc1, hcu, hu2⟩ := h
  have hp6 : r.padding.length = 6 := by rw [hpz]; simp
  have hlen : r.to_bytes.length = AgentRegistry.LEN :=
    to_bytes_length r hp6 hal hnl hil
  unfold AgentRegistry.from_bytes
  rw [if_neg (by rw [hlen]; simp)]
  have hd0 : r.to_bytes.getD 0 0 = AgentRegistry.AGENT_REGISTRY_DISC := rfl
  have hd1 : r.to_bytes.getD 1 0 = AgentRegistry.VERSION := rfl
  rw [hd0, hd1, if_neg (by simp), if_neg (by simp)]
  have hdrop : r.to_bytes.drop 2 = r.to_bytes_inner := rfl
  rw [hdrop]
  unfold AgentRegistry.to_bytes_inner
  rw [fromBytesInner_fields r.bump r.version r.padding r.authority r.name
    r.inbox_url (i64le r.created_at) (i64le r.updated_at) hp6 hal hnl hil
    (i64le_length _) (i64le_length _)]
  rw [leToI64_i64le r.created_at hc1 (by omega), leToI64_i64le r.updated_at (by omega) hu2]

theorem wf_to_bytes_length (r : AgentRegistry) (h : r.WF) :
    r.to_bytes.length = AgentRegistry.LEN := by
  obtain ⟨-, -, hpz, hal, -, hnl, -, hil, -, -, -, -, -, -, -, -⟩ := h
  exact to_bytes_length r (by rw [hpz]; simp) hal hnl hil

/-- Claim C2: for every record whose name field holds at most 64 bytes of
valid UTF-8, whose inbox field holds at most 256 bytes of valid UTF-8, and
which otherwise satisfies the record invariants, decoding the byte string
produced by encoding the record yields a record equal to it. -/
theorem record_codec_roundtrip (r : AgentRegistry) (h : r.WF) :
    AgentRegistry.from_bytes r.to_bytes = Except.ok r :=
  from_bytes_to_bytes r h

/-- Witness for C2: the round trip at the concrete well-formed record of
the register scenario. -/
theorem record_codec_roundtrip_witness :
    scReg1.WF ∧ AgentRegistry.from_bytes scReg1.to_bytes = Except.ok scReg1 :=
  ⟨by decide, record_codec_roundtrip scReg1 (by decide)⟩

/-- Claim C3: set_name with more than 64 bytes fails with NameTooLong
(Custom 101) and leaves every field of the record unchanged, and
set_inbox_url with more than 256 bytes fails with InboxUrlTooLong
(Custom 102) likewise; at most 64 respectively 256 bytes (so in particular
exactly 64 and exactly 256) succeed, and on success the field holds the
length prefix, the payload and a zero tail, so no bytes of a previous
longer value remain. -/
theorem set_string_fields_bounds (r : AgentRegistry) (n u : List Nat) :
    (n.length > 64 → r.set_name n = (r, some (ProgramError.Custom 101))) ∧
    (n.length ≤ 64 → r.set_name n =
      ({ r with name := (u32le n.length ++ n ++
          List.replicate (64 - n.length) 0) }, none)) ∧
    (u.length > 256 → r.set_inbox_url u = (r, some (ProgramError.Custom 102))) ∧
    (u.length ≤ 256 → r.set_inbox_url u =
      ({ r with inbox_url := (u32le u.length ++ u ++
          List.replicate (256 - u.length) 0) }, none)) := by
  refine ⟨fun h => ?_, fun h => ?_, fun h => ?_, fun h => ?_⟩
  · rw [AgentRegistry.set_name, if_pos (by simpa [AgentRegistry.MAX_NAME_LEN] using h)]
    rfl
  · rw [AgentRegistry.set_name,
      if_neg (by simp [AgentRegistry.MAX_NAME_LEN]; omega)]
    rfl
  · rw [AgentRegistry.set_inbox_url,
      if_pos (by simpa [AgentRegistry.MAX_INBOX_URL_LEN] using h)]
    rfl
  · rw [AgentRegistry.set_inbox_url,
      if_neg (by simp [AgentRegistry.MAX_INBOX_URL_LEN]; omega)]
    rfl

/-- Witness for C3 at the boundary inputs: 65 and 257 bytes fail with the
length errors leaving the record as it was, 64 and 256 bytes succeed and
zero-fill the tail of the field. -/
theorem set_string_fields_bounds_witness :
    (scReg1.set_name (List.replicate 65 97) =
      (scReg1, some (ProgramError.Custom 101))) ∧
    (scReg1.set_name (List.replicate 64 97) =
      ({ scReg1 with name := (u32le (List.replicate 64 97 : List Nat).length ++
          List.replicate 64 97 ++
          List.replicate (64 - (List.replicate 64 97 : List Nat).length) 0) },
        none)) ∧
    (scReg1.set_inbox_url (List.replicate 257 97) =
      (scReg1, some (ProgramError.Custom 102))) ∧
    (scReg1.set_inbox_url (List.replicate 256 97) =
      ({ scReg1 with inbox_url := (u32le (List.replicate 256 97 : List Nat).length ++
          List.replicate 256 97 ++
          List.replicate (256 - (List.replicate 256 97 : List Nat).length) 0) },
        none)) :=
  ⟨(set_string_fields_bounds scReg1 (List.replicate 65 97) []).1 (by decide),
   (set_string_fields_bounds scReg1 (List.replicate 64 97) []).2.1 (by decide),
   (set_string_fields_bounds scReg1 [] (List.replicate 257 97)).2.2.1 (by decide),
   (set_string_fields_bounds scReg1 [] (List.replicate 256 97)).2.2.2 (by decide)⟩

/-- Claim C4: for every stored record and every update or deregister
request whose signing authority address differs from the stored owner key,
the operation fails with InvalidAuthority (Custom 100); no new account
contents are produced, so the stored record bytes are unchanged. -/
theorem authority_mismatch_rejected (auth reg prog : AccountView)
    (r : AgentRegistry) (d : List Nat) (ud : UpdateAgentData)
    (hsig : auth.isSigner = true) (hawr : auth.isWritable = true)
    (hwr : reg.isWritable = true) (hprog : prog.address = agentmailProgramId)
    (hstored : reg.dataBytes = r.to_bytes) (hWF : r.WF)
    (hne : auth.address ≠ r.authority)
    (hd : UpdateAgentData.try_from d = Except.ok ud) :
    process_update_agent agentmailProgramId [auth, reg, prog] d =
        Except.error (ProgramError.Custom 100) ∧
    process_deregister_agent agentmailProgramId [auth, reg, prog] d =
        Except.error (ProgramError.Custom 100) := by
  have hacc : UpdateAgentAccounts.try_from [auth, reg, prog] =
      Except.ok ⟨auth, reg, prog⟩ := by
    simp [UpdateAgentAccounts.try_from, verify_signer, verify_writable,
      verify_current_program, hsig, hwr, hprog]
  have hacc2 : DeregisterAgentAccounts.try_from [auth, reg, prog] =
      Except.ok ⟨auth, reg, prog⟩ := by
    simp [DeregisterAgentAccounts.try_from, verify_signer, verify_writable,
      verify_current_program, hsig, hawr, hwr, hprog]
  have hsize : reg.dataBytes.length = AgentRegistry.LEN := by
    rw [hstored]; exact wf_to_bytes_length r hWF
  have hfb : AgentRegistry.from_bytes reg.dataBytes = Except.ok r := by
    rw [hstored]; exact from_bytes_to_bytes r hWF
  have hva : r.validate_authority auth.address =
      Except.error (ProgramError.Custom 100) := by
    rw [AgentRegistry.validate_authority, if_pos (fun hh => hne hh.symm)]
    rfl
  constructor
  · simp [process_update_agent, hacc, hd, get_current_timestamp, hsize, hfb, hva]
  · simp [process_deregister_agent, hacc2, DeregisterAgentData.try_from,
      hsize, hfb, hva]

/-- Witness for C4: the concrete update and deregister calls signed by the
authority 9…9 against the record owned by 1…1 fail with InvalidAuthority. -/
theorem authority_mismatch_rejected_witness :
    process_update_agent agentmailProgramId
        [scWrongAuthAcct, scStoredAcct scRegAddr, scProgAcct] scUpdIx =
      Except.error (ProgramError.Custom 100) ∧
    process_deregister_agent agentmailProgramId
        [scWrongAuthAcct, scStoredAcct scRegAddr, scProgAcct] scUpdIx =
      Except.error (ProgramError.Custom 100) :=
  authority_mismatch_rejected scWrongAuthAcct (scStoredAcct scRegAddr)
    scProgAcct scReg1 scUpdIx ⟨scNameUpd, scUrlUpd⟩ rfl rfl rfl rfl rfl
    (by decide) (by decide) (by decide)

/-- Claim C5, evaluated on the program: a successful register followed by
a successful update of the same record leaves created_at and the owner key
unchanged, but because the timestamp source of the sources is a fixed
placeholder (it always returns 1707523200 instead of reading the clock),
updated_at equals the original created_at after the update — it is not
strictly greater, contradicting the claim. -/
theorem register_then_update_timestamp_not_greater :
    process_register_agent scDerive agentmailProgramId scRegAccounts scRegIx =
        Except.ok scReg1.to_bytes ∧
    process_update_agent agentmailProgramId scUpdAccounts scUpdIx =
        Except.ok scReg2.to_bytes ∧
    AgentRegistry.from_bytes scReg1.to_bytes = Except.ok scReg1 ∧
    AgentRegistry.from_bytes scReg2.to_bytes = Except.ok scReg2 ∧
    scReg2.created_at = scReg1.created_at ∧
    scReg2.authority = scReg1.authority ∧
    scReg2.updated_at = scReg1.created_at ∧
    ¬ scReg2.updated_at > scReg1.created_at := by
  refine ⟨by decide, by decide, by decide, by decide, rfl, rfl, rfl, by decide⟩

/-- Claim C1, evaluated on the program: the update and deregister
processors never re-run the PDA validation — for every derivation oracle
under which the PDA check of the stored record over the fixed seed prefix, the
stored owner key and the stored bump rejects the registry address (first
conjunct), the update and the deregister nevertheless succeed, instead of
failing as the claim requires.  (Register is the only processor invoking
validate_pda; update and deregister decode the stored record without it,
so their result cannot depend on any address derivation.) -/
theorem update_deregister_skip_pda_validation
    (derive : List (List Nat) → List Nat → List Nat)
    (hwrong : derive [agentmailSeed, scReg1.authority, [scReg1.bump]]
        agentmailProgramId ≠ scRegAddr) :
    scReg1.validate_pda derive (scStoredAcct scRegAddr) agentmailProgramId
        scReg1.bump = Except.error ProgramError.InvalidSeeds ∧
    process_update_agent agentmailProgramId scUpdAccounts scUpdIx =
      Except.ok scReg2.to_bytes ∧
    process_deregister_agent agentmailProgramId scUpdAccounts [] =
      Except.ok (List.replicate AgentRegistry.LEN 0) := by
  refine ⟨?_, by decide, by decide⟩
  rw [AgentRegistry.validate_pda, if_neg (by simpa [scStoredAcct] using hwrong)]

/-- Witness for C1 at a concrete oracle deriving the empty address, under
which the stored PDA check rejects while both operations succeed. -/
theorem update_deregister_skip_pda_validation_witness :
    scReg1.validate_pda (fun _ _ => []) (scStoredAcct scRegAddr)
        agentmailProgramId scReg1.bump =
      Except.error ProgramError.InvalidSeeds ∧
    process_update_agent agentmailProgramId scUpdAccounts scUpdIx =
      Except.ok scReg2.to_bytes ∧
    process_deregister_agent agentmailProgramId scUpdAccounts [] =
      Except.ok (List.replicate AgentRegistry.LEN 0) :=
  update_deregister_skip_pda_validation (fun _ _ => []) (by decide)

/-- Claim C6: reading a string field fails with InvalidNameLength
(Custom 103) respectively InvalidInboxUrlLength (Custom 104) whenever the
4-byte little-endian length prefix exceeds 64 respectively 256; within the
bound the sliced payload has at most 64 respectively 256 bytes (so the
read stays inside the fixed 68- respectively 260-byte field), and the read
fails with InvalidUtf8 (Custom 105) exactly when that payload is not valid
UTF-8. -/
theorem get_string_fields_bounds (r : AgentRegistry) :
    (leToNat (r.name.take 4) > 64 →
      r.get_name = Except.error (ProgramError.Custom 103)) ∧
    (leToNat (r.name.take 4) ≤ 64 →
      r.get_name =
        (if isValidUtf8 ((r.name.drop 4).take (leToNat (r.name.take 4))) then
          Except.ok ((r.name.drop 4).take (leToNat (r.name.take 4)))
         else Except.error (ProgramError.Custom 105)) ∧
      ((r.name.drop 4).take (leToNat (r.name.take 4))).length ≤ 64) ∧
    (leToNat (r.inbox_url.take 4) > 256 →
      r.get_inbox_url = Except.error (ProgramError.Custom 104)) ∧
    (leToNat (r.inbox_url.take 4) ≤ 256 →
      r.get_inbox_url =
        (if isValidUtf8 ((r.inbox_url.drop 4).take (leToNat (r.inbox_url.take 4))) then
          Except.ok ((r.inbox_url.drop 4).take (leToNat (r.inbox_url.take 4)))
         else Except.error (ProgramError.Custom 105)) ∧
      ((r.inbox_url.drop 4).take (leToNat (r.inbox_url.take 4))).length ≤ 256) := by
  refine ⟨fun h => ?_, fun h => ⟨?_, ?_⟩, fun h => ?_, fun h => ⟨?_, ?_⟩⟩
  · simp only [AgentRegistry.get_name]
    rw [if_pos (by simpa [AgentRegistry.MAX_NAME_LEN] using h)]
    rfl
  · simp only [AgentRegistry.get_name]
    rw [if_neg (by simp [AgentRegistry.MAX_NAME_LEN]; omega)]
    rfl
  · simp only [List.length_take]
    omega
  · simp only [AgentRegistry.get_inbox_url]
    rw [if_pos (by simpa [AgentRegistry.MAX_INBOX_URL_LEN] using h)]
    rfl
  · simp only [AgentRegistry.get_inbox_url]
    rw [if_neg (by simp [AgentRegistry.MAX_INBOX_URL_LEN]; omega)]
    rfl
  · simp only [List.length_take]
    omega

/-- Witness for C6: a stored length prefix of 65 fails InvalidNameLength,
a prefix of 257 fails InvalidInboxUrlLength, an in-bounds payload of the
invalid UTF-8 bytes 255, 254, 253, 252 fails InvalidUtf8, and the valid
scenario record reads back its name and URL. -/
theorem get_string_fields_bounds_witness :
    scBadLenReg.get_name = Except.error (ProgramError.Custom 103) ∧
    scBadUtf8Reg.get_name = Except.error (ProgramError.Custom 105) ∧
    scReg1.get_name = Except.ok scNameNix ∧
    scUrlBadLenReg.get_inbox_url = Except.error (ProgramError.Custom 104) ∧
    scReg1.get_inbox_url = Except.ok scUrlNix := by
  refine ⟨(get_string_fields_bounds scBadLenReg).1 (by decide), ?_, ?_,
    (get_string_fields_bounds scUrlBadLenReg).2.2.1 (by decide), ?_⟩
  · have h := ((get_string_fields_bounds scBadUtf8Reg).2.1 (by decide)).1
    rw [h]; decide
  · have h := ((get_string_fields_bounds scReg1).2.1 (by decide)).1
    rw [h]; decide
  · have h := ((get_string_fields_bounds scReg1).2.2.2 (by decide)).1
    rw [h]; decide

/-- Claim C7: an empty request fails InvalidInstructionData for every
operation; a tag other than 3, 4, 5 fails InvalidInstructionData; and once
the deregister tag 5 is read, any trailing payload bytes (including none)
are accepted and ignored — the outcome is independent of them. -/
theorem dispatcher_tag_handling (derive : List (List Nat) → List Nat → List Nat)
    (pid : List Nat) (accounts : List AccountView) (tag : Nat)
    (rest rest2 : List Nat) :
    (process_instruction derive pid accounts [] =
      Except.error ProgramError.InvalidInstructionData) ∧
    (tag ≠ 3 → tag ≠ 4 → tag ≠ 5 →
      process_instruction derive pid accounts (tag :: rest) =
        Except.error ProgramError.InvalidInstructionData) ∧
    (process_instruction derive pid accounts (5 :: rest) =
      process_instruction derive pid accounts (5 :: rest2)) := by
  refine ⟨rfl, fun h3 h4 h5 => ?_, ?_⟩
  · have hd : AgentMailInstructionDiscriminators.try_from tag =
        Except.error ProgramError.InvalidInstructionData := by
      unfold AgentMailInstructionDiscriminators.try_from
      split <;> simp_all
    simp [process_instruction, hd]
  · show process_deregister_agent pid accounts rest =
      process_deregister_agent pid accounts rest2
    rfl

/-- Witness for C7: the unknown tag 7 is rejected with
InvalidInstructionData. -/
theorem dispatcher_tag_handling_witness :
    process_instruction scDerive agentmailProgramId scUpdAccounts
        (7 :: scUpdIx) = Except.error ProgramError.InvalidInstructionData :=
  (dispatcher_tag_handling scDerive agentmailProgramId scUpdAccounts 7
    scUpdIx []).2.1 (by decide) (by decide) (by decide)

/-- Claim C8 counterexample: the stored registry account of the scenario
holds 386 bytes — a length different from the claimed fixed size of 384 —
and yet the update succeeds instead of failing with InvalidAccountSize:
the size the processors check is 386, not 384. -/
theorem stored_size_384_claim_false :
    (scStoredAcct scRegAddr).dataBytes.length = 386 ∧ (386 : Nat) ≠ 384 ∧
    process_update_agent agentmailProgramId scUpdAccounts scUpdIx =
      Except.ok scReg2.to_bytes :=
  ⟨by decide, by decide, by decide⟩

/-- Claim C8 as amended: the fixed persisted account size is LEN = 386
bytes (the two-byte discriminator/version header followed by the 384-byte
record body); every update or deregister whose registry account data
length differs from 386 fails with InvalidAccountSize (Custom 108), and
since this holds for arbitrary buffer contents the check precedes any
decode and the buffer is never partially parsed. -/
theorem stored_size_check_386 (auth reg prog : AccountView) (d : List Nat)
    (ud : UpdateAgentData)
    (hsig : auth.isSigner = true) (hawr : auth.isWritable = true)
    (hwr : reg.isWritable = true) (hprog : prog.address = agentmailProgramId)
    (hd : UpdateAgentData.try_from d = Except.ok ud)
    (hlen : reg.dataBytes.length ≠ 386) :
    AgentRegistry.LEN = 386 ∧
    process_update_agent agentmailProgramId [auth, reg, prog] d =
      Except.error (ProgramError.Custom 108) ∧
    process_deregister_agent agentmailProgramId [auth, reg, prog] d =
      Except.error (ProgramError.Custom 108) := by
  have hacc : UpdateAgentAccounts.try_from [auth, reg, prog] =
      Except.ok ⟨auth, reg, prog⟩ := by
    simp [UpdateAgentAccounts.try_from, verify_signer, verify_writable,
      verify_current_program, hsig, hwr, hprog]
  have hacc2 : DeregisterAgentAccounts.try_from [auth, reg, prog] =
      Except.ok ⟨auth, reg, prog⟩ := by
    simp [DeregisterAgentAccounts.try_from, verify_signer, verify_writable,
      verify_current_program, hsig, hawr, hwr, hprog]
  have hlen2 : reg.dataBytes.length ≠ AgentRegistry.LEN := by
    simpa [AgentRegistry.LEN, AgentRegistry.DATA_LEN] using hlen
  refine ⟨rfl, ?_, ?_⟩
  · simp [process_update_agent, hacc, hd, get_current_timestamp,
      if_pos hlen2, hlen2, AgentMailProgramError.toProgramError,
      AgentMailProgramError.code]
  · simp [process_deregister_agent, hacc2, DeregisterAgentData.try_from,
      if_pos hlen2, hlen2, AgentMailProgramError.toProgramError,
      AgentMailProgramError.code]

/-- Witness for C8: a registry account holding 384 bytes — the record body
size itself — is rejected with InvalidAccountSize by both update and
deregister, since the checked size is 386. -/
theorem stored_size_check_386_witness :
    AgentRegistry.LEN = 386 ∧
    process_update_agent agentmailProgramId
        [scAuthAcct, scBadSizeAcct, scProgAcct] scUpdIx =
      Except.error (ProgramError.Custom 108) ∧
    process_deregister_agent agentmailProgramId
        [scAuthAcct, scBadSizeAcct, scProgAcct] scUpdIx =
      Except.error (ProgramError.Custom 108) :=
  stored_size_check_386 scAuthAcct scBadSizeAcct scProgAcct scUpdIx
    ⟨scNameUpd, scUrlUpd⟩ rfl rfl rfl rfl (by decide) (by decide)

/-- Claim C9: every successful deregister leaves the registry data region
all-zero (the full LEN-byte region), and an all-zero buffer never decodes
as a record — the zeroed discriminator/version header is rejected rather
than aliasing a live record. -/
theorem deregister_zero_fill_no_alias :
    (∀ pid accounts d out,
      process_deregister_agent pid accounts d = Except.ok out →
        out = List.replicate AgentRegistry.LEN 0 ∧ ∀ b ∈ out, b = 0) ∧
    (∀ d : List Nat, (∀ b ∈ d, b = 0) →
      ∃ e, AgentRegistry.from_bytes d = Except.error e) := by
  constructor
  · intro pid accounts d out h
    unfold process_deregister_agent at h
    rcases hacc : DeregisterAgentAccounts.try_from accounts with e | accs <;>
      rw [hacc] at h
    · simp at h
    · dsimp only [DeregisterAgentData.try_from] at h
      by_cases hsz : accs.agent_registry.dataBytes.length ≠ AgentRegistry.LEN
      · rw [if_pos hsz] at h
        simp at h
      · rw [if_neg hsz] at h
        rcases hfb : AgentRegistry.from_bytes accs.agent_registry.dataBytes
            with e2 | r <;> rw [hfb] at h <;> dsimp only at h
        · simp at h
        · rcases hva : r.validate_authority accs.agent_authority.address
              with e3 | u3 <;> rw [hva] at h <;> dsimp only at h
          · simp at h
          · simp only [Except.ok.injEq] at h
            push_neg at hsz
            subst h
            exact ⟨by rw [hsz], fun b hb => List.eq_of_mem_replicate hb⟩
  · intro d hz
    by_cases hl : d.length ≠ AgentRegistry.LEN
    · exact ⟨_, by rw [AgentRegistry.from_bytes, if_pos hl]⟩
    · have h0 : d.getD 0 0 = 0 := by
        cases d with
        | nil => rfl
        | cons x xs => simpa using hz x (by simp)
      refine ⟨AgentMailProgramError.InvalidAccountData.toProgramError, ?_⟩
      rw [AgentRegistry.from_bytes, if_neg hl]
      simp only [h0]
      rw [if_pos (by decide)]

/-- Witness for C9: the concrete scenario deregister succeeds and yields
the all-zero region, and the zero-filled 386-byte buffer fails to decode. -/
theorem deregister_zero_fill_no_alias_witness :
    (List.replicate AgentRegistry.LEN 0 = List.replicate AgentRegistry.LEN 0 ∧
      ∀ b ∈ (List.replicate AgentRegistry.LEN 0 : List Nat), b = 0) ∧
    ∃ e, AgentRegistry.from_bytes (List.replicate 386 0) = Except.error e :=
  ⟨deregister_zero_fill_no_alias.1 agentmailProgramId scUpdAccounts []
      (List.replicate AgentRegistry.LEN 0) (by decide),
   deregister_zero_fill_no_alias.2 (List.replicate 386 0) (by simp)⟩

/-- Claim C10: each account-view parser accepts only a list of exactly its
fixed arity — 3 for update, 3 for deregister, 5 for register; a longer
list, not only a shorter one, is rejected, and the error in both cases is
NotEnoughAccountKeys. -/
theorem account_list_arity_exact (accs : List AccountView) :
    (accs.length ≠ 3 → UpdateAgentAccounts.try_from accs =
      Except.error ProgramError.NotEnoughAccountKeys) ∧
    (accs.length ≠ 3 → DeregisterAgentAccounts.try_from accs =
      Except.error ProgramError.NotEnoughAccountKeys) ∧
    (accs.length ≠ 5 → RegisterAgentAccounts.try_from accs =
      Except.error ProgramError.NotEnoughAccountKeys) := by
  rcases accs with _ | ⟨a1, _ | ⟨a2, _ | ⟨a3, _ | ⟨a4, _ | ⟨a5, _ | ⟨a6, t⟩⟩⟩⟩⟩⟩ <;>
    refine ⟨fun h => ?_, fun h => ?_, fun h => ?_⟩ <;>
    first
      | rfl
      | exact absurd rfl h

/-- Witness for C10: the four-element account list — longer than the
update and deregister arity, shorter than the register arity — is rejected
with NotEnoughAccountKeys by all three parsers. -/
theorem account_list_arity_exact_witness :
    UpdateAgentAccounts.try_from scFourAccounts =
      Except.error ProgramError.NotEnoughAccountKeys ∧
    DeregisterAgentAccounts.try_from scFourAccounts =
      Except.error ProgramError.NotEnoughAccountKeys ∧
    RegisterAgentAccounts.try_from scFourAccounts =
      Except.error ProgramError.NotEnoughAccountKeys :=
  ⟨(account_list_arity_exact scFourAccounts).1 (by decide),
   (account_list_arity_exact scFourAccounts).2.1 (by decide),
   (account_list_arity_exact scFourAccounts).2.2 (by decide)⟩

end AgentMail
